import Mathlib

/-!
Disaster-recovery dashboard client (`frontend/src/App.js`).

A shallow embedding of the `App` component: the two asynchronous handlers
`fetchStatus` and `handleFailover`, cut at their `await` points, the mount
effect, and the JSX returned by the component.  Values received from the
backend are untyped JavaScript values, as in the source.
-/

namespace Dashboard

/-! ## JavaScript values -/

/-- A JavaScript value as produced by `response.json()` or by a property read.
Numbers are carried as integers: the component only tests them for zero.  An
object is the list of its own properties, each key occurring once. -/
inductive JsVal where
  | undefined
  | null
  | bool (b : Bool)
  | num (n : Int)
  | str (s : String)
  | arr (items : List JsVal)
  | obj (fields : List (String × JsVal))

/-- An exception thrown during a render.  `typeError prop`: the component read
property `prop` of `undefined` or `null`.  `objectAsChild`: React met a plain
object among the `{...}` children of the returned tree ("Objects are not valid
as a React child"). -/
inductive JsError where
  | typeError (prop : String)
  | objectAsChild
  deriving DecidableEq

/-- Property read `v.k`, for the keys used by the component (`message`,
`primarySite`, `drSite`, `region`, `databaseStatus`), none of which is defined
on a built-in prototype: it throws on `undefined` and `null`, looks the key up
in an object, and is `undefined` on every other value. -/
def JsVal.get (v : JsVal) (k : String) : Except JsError JsVal :=
  match v with
  | .undefined => .error (.typeError k)
  | .null => .error (.typeError k)
  | .obj fields => .ok ((fields.lookup k).getD .undefined)
  | _ => .ok .undefined

/-- JavaScript truthiness, as tested by `!status`. -/
def JsVal.truthy : JsVal → Bool
  | .undefined => false
  | .null => false
  | .bool b => b
  | .num n => n != 0
  | .str s => s != ""
  | .arr _ => true
  | .obj _ => true

/-! ## Network and effects -/

/-- The base URL of the backend (`const API_URL`). -/
def API_URL : String := "http://localhost:5000"

/-- HTTP method of a `fetch` call. -/
inductive Method where
  | GET
  | POST
  deriving DecidableEq

/-- What the two awaits `fetch(...)` and `response.json()` deliver.
`networkError`: `fetch` rejects.  `response code body`: `fetch` resolves with
HTTP status `code`; `body = none` when `response.json()` rejects, and
`some data` when it resolves with `data`. -/
inductive Outcome where
  | networkError
  | response (code : Nat) (body : Option JsVal)

/-- An effect of the component on its environment, in program order. -/
inductive Effect where
  | fetch (method : Method) (url : String)
  | alert (arg : JsVal)
  | consoleError (label : String)

/-- The component with its environment: the two `useState` cells, whether the
mount effect has run, the requests in flight, and the effects so far. -/
structure Client where
  status : JsVal
  loading : Bool
  mounted : Bool
  pendingGet : Nat
  pendingPost : Nat
  log : List Effect

/-- State of the first render: `useState(null)`, `useState(true)`. -/
def init : Client :=
  { status := .null, loading := true, mounted := false,
    pendingGet := 0, pendingPost := 0, log := [] }

/-- Append one effect to the log. -/
def Client.emit (c : Client) (e : Effect) : Client :=
  { c with log := c.log ++ [e] }

/-! ## `fetchStatus` -/

/-- Body of `fetchStatus` up to its first `await`: `setLoading(true)` and the
call `fetch(API_URL + "/status")`. -/
def fetchStatusStart (c : Client) : Client :=
  let c1 := { c with loading := true }
  { c1.emit (.fetch .GET (API_URL ++ "/status")) with pendingGet := c1.pendingGet + 1 }

/-- Rest of `fetchStatus` once the request has settled: `setStatus(data)` when
both awaits resolve, the `catch` block otherwise, then `setLoading(false)`. -/
def fetchStatusResume (c : Client) (o : Outcome) : Client :=
  let c1 :=
    match o with
    | .response _ (some data) => { c with status := data }
    | _ => { c.emit (.consoleError "Failed to fetch status:") with status := .null }
  { c1 with loading := false }

/-- One whole run of `fetchStatus` whose request settles with `o`. -/
def fetchStatus (c : Client) (o : Outcome) : Client :=
  let c1 := fetchStatusStart c
  fetchStatusResume { c1 with pendingGet := c1.pendingGet - 1 } o

/-! ## `handleFailover` -/

/-- Body of `handleFailover` up to its first `await`; `confirmed` is the answer
of `window.confirm`.  On confirmation the POST is issued. -/
def handleFailoverStart (c : Client) (confirmed : Bool) : Client :=
  if confirmed then
    { c.emit (.fetch .POST (API_URL ++ "/initiate-failover")) with
      pendingPost := c.pendingPost + 1 }
  else c

/-- The `catch` block of `handleFailover`. -/
def handleFailoverCatch (c : Client) : Client :=
  (c.emit (.consoleError "Failover initiation failed:")).emit
    (.alert (.str "Failed to initiate failover."))

/-- Rest of `handleFailover` once the POST has settled: `alert(data.message)`
and the call of `fetchStatus()` inside the `try`, the `catch` block when an
await rejects or `data.message` throws. -/
def handleFailoverResume (c : Client) (o : Outcome) : Client :=
  match o with
  | .response _ (some data) =>
    match data.get "message" with
    | .ok m => fetchStatusStart (c.emit (.alert m))
    | .error _ => handleFailoverCatch c
  | _ => handleFailoverCatch c

/-- One run of `handleFailover` with the operator's answer and the outcome of
the POST (unused when the operator declines), up to the point where the
handler itself has finished. -/
def handleFailover (c : Client) (confirmed : Bool) (o : Outcome) : Client :=
  if confirmed then
    let c1 := handleFailoverStart c true
    handleFailoverResume { c1 with pendingPost := c1.pendingPost - 1 } o
  else handleFailoverStart c false

/-! ## Events of the client -/

/-- What can happen to the mounted component. -/
inductive Action where
  | mount
  | clickRefresh
  | clickFailover (confirmed : Bool)
  | getSettled (o : Outcome)
  | postSettled (o : Outcome)

/-- One event.  `mount` is the `useEffect(..., [])` callback, which runs once.
A button can be clicked only while its `disabled={loading}` is false.  A
request can settle only while one of its kind is in flight. -/
def step (c : Client) : Action → Option Client
  | .mount => if c.mounted then none else some (fetchStatusStart { c with mounted := true })
  | .clickRefresh => if c.loading then none else some (fetchStatusStart c)
  | .clickFailover b => if c.loading then none else some (handleFailoverStart c b)
  | .getSettled o =>
    if 0 < c.pendingGet then
      some (fetchStatusResume { c with pendingGet := c.pendingGet - 1 } o)
    else none
  | .postSettled o =>
    if 0 < c.pendingPost then
      some (handleFailoverResume { c with pendingPost := c.pendingPost - 1 } o)
    else none

/-- A sequence of events, from left to right. -/
def run (c : Client) : List Action → Option Client
  | [] => some c
  | a :: rest =>
    match step c a with
    | some c1 => run c1 rest
    | none => none

/-- The network requests in an effect log, in order. -/
def requests : List Effect → List (Method × String)
  | [] => []
  | .fetch m u :: rest => (m, u) :: requests rest
  | _ :: rest => requests rest

/-- The arguments of the `alert` calls in an effect log, in order. -/
def alerts : List Effect → List JsVal
  | [] => []
  | .alert v :: rest => v :: alerts rest
  | _ :: rest => alerts rest

/-! ## The rendered view -/

/-- The two event handlers a button can be bound to. -/
inductive Handler where
  | fetchStatus
  | handleFailover
  deriving DecidableEq

/-- A node of the element tree returned by the component: literal JSX text, a
`{...}` child holding a JavaScript value, or an element with its `className`
(as a list of class names), `onClick`, `disabled` and children. -/
inductive Node where
  | text (s : String)
  | expr (v : JsVal)
  | el (tag : String) (className : List String) (onClick : Option Handler)
      (disabled : Option Bool) (children : List Node)

/-- The element `<p>Loading system status...</p>`. -/
def loadingIndicator : Node :=
  .el "p" [] none none [.text "Loading system status..."]

/-- The element `<p className="error">...</p>`. -/
def errorMessage : Node :=
  .el "p" ["error"] none none
    [.text "Could not load system status. Is the backend running?"]

/-- The element `<div className="status-grid">` with its two site cards, for
the four values that fill its `{...}` children. -/
def statusGridOf (primaryRegion primaryDb drRegion drDb : JsVal) : Node :=
  .el "div" ["status-grid"] none none
    [ .el "div" ["site-card", "primary"] none none
        [ .el "h2" [] none none [.text "Primary Site (", .expr primaryRegion, .text ")"],
          .el "p" [] none none
            [ .text "Database Status: ",
              .el "span" ["status-badge"] none none [.expr primaryDb] ] ],
      .el "div" ["site-card", "dr"] none none
        [ .el "h2" [] none none [.text "DR Site (", .expr drRegion, .text ")"],
          .el "p" [] none none
            [ .text "Database Status: ",
              .el "span" ["status-badge"] none none [.expr drDb] ] ] ]

/-- The status grid for `status`.  The four property chains
`status.primarySite.region`, `status.primarySite.databaseStatus`,
`status.drSite.region`, `status.drSite.databaseStatus` are evaluated in source
order and the first one that throws aborts the render. -/
def statusGrid (status : JsVal) : Except JsError Node := do
  let primaryRegion ← (← status.get "primarySite").get "region"
  let primaryDb ← (← status.get "primarySite").get "databaseStatus"
  let drRegion ← (← status.get "drSite").get "region"
  let drDb ← (← status.get "drSite").get "databaseStatus"
  pure (statusGridOf primaryRegion primaryDb drRegion drDb)

/-- The element `<div className="actions">` with the two buttons. -/
def actions (loading : Bool) : Node :=
  .el "div" ["actions"] none none
    [ .el "button" [] (some .fetchStatus) (some loading) [.text "Refresh Status"],
      .el "button" ["failover-button"] (some .handleFailover) (some loading)
        [.text "Initiate Failover"] ]

/-- The JSX returned by `App` for the current `status` and `loading`. -/
def App (status : JsVal) (loading : Bool) : Except JsError Node := do
  let body ←
    if loading then pure loadingIndicator
    else if !status.truthy then pure errorMessage
    else statusGrid status
  pure (.el "div" ["App"] none none
    [ .el "header" ["App-header"] none none
        [.el "h1" [] none none [.text "Cloud Disaster Recovery Dashboard"]],
      .el "main" ["container"] none none [body, actions loading] ])

/-- The view of a client state. -/
def Client.view (c : Client) : Except JsError Node :=
  App c.status c.loading

/-! ## Reading a view -/

/-- Tag of an element (`none` for text and `{...}` children). -/
def Node.tag : Node → Option String
  | .el t _ _ _ _ => some t
  | _ => none

/-- Class names of an element. -/
def Node.className : Node → List String
  | .el _ c _ _ _ => c
  | _ => []

/-- The `onClick` handler of an element. -/
def Node.onClick : Node → Option Handler
  | .el _ _ h _ _ => h
  | _ => none

/-- The `disabled` attribute of an element. -/
def Node.disabled : Node → Option Bool
  | .el _ _ _ d _ => d
  | _ => none

/-- Children of an element. -/
def Node.children : Node → List Node
  | .el _ _ _ _ ch => ch
  | _ => []

mutual
/-- All elements of a tree, the root included, in document order. -/
def Node.elements : Node → List Node
  | .text _ => []
  | .expr _ => []
  | .el t c h d ch => .el t c h d ch :: elementsList ch
/-- All elements of a list of trees, in document order. -/
def elementsList : List Node → List Node
  | [] => []
  | n :: rest => n.elements ++ elementsList rest
end

/-- The site cards of a view: the elements carrying the class `site-card`. -/
def Node.siteCards (n : Node) : List Node :=
  n.elements.filter (fun e => e.className.contains "site-card")

/-- The controls of a view: its `button` elements. -/
def Node.buttons (n : Node) : List Node :=
  n.elements.filter (fun e => e.tag == some "button")

mutual
/-- The text a tree displays when every `{...}` child in it holds a string,
which is shown verbatim; `none` when some `{...}` child holds another value. -/
def Node.shown : Node → Option String
  | .text s => some s
  | .expr (.str s) => some s
  | .expr _ => none
  | .el _ _ _ _ ch => shownList ch
/-- The text displayed by a list of trees, concatenated. -/
def shownList : List Node → Option String
  | [] => some ""
  | n :: rest =>
    match n.shown, shownList rest with
    | some a, some b => some (a ++ b)
    | _, _ => none
end

/-! ## React's pass over the returned tree -/

mutual
/-- Whether React accepts a value as a `{...}` child: a string or a number is
shown as text, `undefined`, `null` and booleans show nothing, an array is
accepted when each of its items is, and a plain object is refused. -/
def JsVal.validChild : JsVal → Bool
  | .undefined => true
  | .null => true
  | .bool _ => true
  | .num _ => true
  | .str _ => true
  | .arr items => validChildren items
  | .obj _ => false
/-- Whether React accepts every value of a list as a child. -/
def validChildren : List JsVal → Bool
  | [] => true
  | v :: rest => v.validChild && validChildren rest
end

mutual
/-- Whether React accepts every `{...}` child of a tree. -/
def Node.accepted : Node → Bool
  | .text _ => true
  | .expr v => v.validChild
  | .el _ _ _ _ ch => acceptedList ch
/-- Whether React accepts every `{...}` child of a list of trees. -/
def acceptedList : List Node → Bool
  | [] => true
  | n :: rest => n.accepted && acceptedList rest
end

/-- One render of the component: the call of `App`, which may throw on a
property read, followed by React's pass over the returned tree, which throws on
a plain object among the `{...}` children.  `.ok view` is a view on screen. -/
def render (status : JsVal) (loading : Bool) : Except JsError Node :=
  match App status loading with
  | .ok tree => if tree.accepted then .ok tree else .error .objectAsChild
  | .error e => .error e

/-- The render of a client state. -/
def Client.rendered (c : Client) : Except JsError Node :=
  render c.status c.loading

/-- A status object whose `primarySite.region` is a JSON object. -/
def objectRegionStatus : JsVal :=
  .obj [ ("primarySite", .obj [("region", .obj []), ("databaseStatus", .str "healthy")]),
         ("drSite", .obj [("region", .str "us-west-2"), ("databaseStatus", .str "replicating")]) ]

/-- A fully populated status object as the status endpoint documents it:
`primarySite` and `drSite` are both present, each with string fields `region`
and `databaseStatus`, here with the given four values. -/
def IsSystemStatus (v : JsVal) (pRegion pDb dRegion dDb : String) : Prop :=
  ∃ p d, v.get "primarySite" = .ok p ∧ v.get "drSite" = .ok d ∧
    p.get "region" = .ok (.str pRegion) ∧ p.get "databaseStatus" = .ok (.str pDb) ∧
    d.get "region" = .ok (.str dRegion) ∧ d.get "databaseStatus" = .ok (.str dDb)

/-- The status object with exactly the documented fields. -/
def mkStatus (pRegion pDb dRegion dDb : String) : JsVal :=
  .obj [ ("primarySite", .obj [("region", .str pRegion), ("databaseStatus", .str pDb)]),
         ("drSite", .obj [("region", .str dRegion), ("databaseStatus", .str dDb)]) ]

/-- A fully populated status object, whatever its four strings. -/
def Populated (v : JsVal) : Prop :=
  ∃ a b c d, IsSystemStatus v a b c d

/-- Whether an event is the operator using one of the two controls. -/
def Action.isClick : Action → Bool
  | .clickRefresh => true
  | .clickFailover _ => true
  | _ => false

/-- A sequence of events in which the operator uses no control while a
failover POST is in flight. -/
def calm (c : Client) : List Action → Bool
  | [] => true
  | a :: rest =>
    !(a.isClick && decide (0 < c.pendingPost)) &&
      match step c a with
      | some c1 => calm c1 rest
      | none => true

/-- The status object of a response that lacks `drSite`. -/
def partialStatus : JsVal :=
  .obj [("primarySite", .obj [("region", .str "us-east-1"), ("databaseStatus", .str "healthy")])]

/-- Bookkeeping that holds along calm runs: at most one request is in flight,
and once mounted `loading` is true exactly while a GET is in flight. -/
structure Quiet (c : Client) : Prop where
  get_le : c.pendingGet ≤ 1
  post_le : c.pendingPost ≤ 1
  excl : c.pendingGet = 1 → c.pendingPost = 0
  loading_iff : c.mounted = true → (c.loading = true ↔ c.pendingGet = 1)
  unmounted : c.mounted = false → c.loading = true ∧ c.pendingGet = 0 ∧ c.pendingPost = 0

/-- A client whose status has been loaded once: the state after the mount effect
and a `200` response carrying a fully populated status. -/
def loadedClient : Client :=
  fetchStatus { init with mounted := true }
    (.response 200 (some (mkStatus "us-east-1" "healthy" "us-west-2" "replicating")))

/-! ## Effect logs -/

theorem requests_append (l1 l2 : List Effect) :
    requests (l1 ++ l2) = requests l1 ++ requests l2 := by
  induction l1 with
  | nil => rfl
  | cons e rest ih => cases e <;> simp [requests, ih]

theorem alerts_append (l1 l2 : List Effect) :
    alerts (l1 ++ l2) = alerts l1 ++ alerts l2 := by
  induction l1 with
  | nil => rfl
  | cons e rest ih => cases e <;> simp [alerts, ih]

/-- Reading a property throws exactly on `undefined` and `null`. -/
theorem get_error_iff (v : JsVal) (k : String) :
    (∃ e, v.get k = .error e) ↔ (v = .undefined ∨ v = .null) := by
  cases v <;> simp [JsVal.get]

theorem get_ok_of_ne (v : JsVal) (k : String) (h1 : v ≠ .undefined) (h2 : v ≠ .null) :
    ∃ m, v.get k = .ok m := by
  cases v <;> simp_all [JsVal.get]

/-! ## `fetchStatus`: one request, loading flag, resulting status -/

/-- C7: for every prior state and every outcome of the GET, `fetchStatus` first
sets `loading` to true while issuing its single GET to `/status`, issues no
other request, ends with `loading = false`, and leaves as status the parsed
body when both awaits resolve and `null` when either rejects, whatever the
status was before. -/
theorem fetchStatus_contract (c : Client) (o : Outcome) :
    (fetchStatusStart c).loading = true ∧
    (fetchStatusStart c).status = c.status ∧
    (fetchStatusStart c).log = c.log ++ [.fetch .GET (API_URL ++ "/status")] ∧
    (fetchStatusStart c).pendingGet = c.pendingGet + 1 ∧
    requests (fetchStatus c o).log = requests c.log ++ [(.GET, API_URL ++ "/status")] ∧
    (fetchStatus c o).pendingGet = c.pendingGet ∧
    (fetchStatus c o).loading = false ∧
    (∀ code data, (fetchStatus c (.response code (some data))).status = data) ∧
    (∀ code, (fetchStatus c (.response code none)).status = .null) ∧
    (fetchStatus c .networkError).status = .null := by
  refine ⟨rfl, rfl, rfl, rfl, ?_, ?_, ?_, fun _ _ => rfl, fun _ => rfl, rfl⟩
  · cases o with
    | networkError =>
      simp [fetchStatus, fetchStatusStart, fetchStatusResume, Client.emit,
        requests_append, requests]
    | response code body =>
      cases body <;>
        simp [fetchStatus, fetchStatusStart, fetchStatusResume, Client.emit,
          requests_append, requests]
  · cases o with
    | networkError =>
      simp [fetchStatus, fetchStatusStart, fetchStatusResume, Client.emit]
    | response code body =>
      cases body <;> simp [fetchStatus, fetchStatusStart, fetchStatusResume, Client.emit]
  · cases o with
    | networkError => rfl
    | response code body => cases body <;> rfl

/-! ## `handleFailover`: declining -/

/-- C3: when the operator declines the prompt, `handleFailover` returns the
client exactly as it was: no request, no notification, and `status` and
`loading` untouched; the click event of the enabled control with a declined
prompt likewise leaves the client as it was. -/
theorem handleFailover_declined (c : Client) (o : Outcome) :
    handleFailover c false o = c ∧
    requests (handleFailover c false o).log = requests c.log ∧
    alerts (handleFailover c false o).log = alerts c.log ∧
    (handleFailover c false o).status = c.status ∧
    (handleFailover c false o).loading = c.loading ∧
    (handleFailover c false o).pendingGet = c.pendingGet ∧
    (handleFailover c false o).pendingPost = c.pendingPost ∧
    step c (.clickFailover false) = (if c.loading then none else some c) := by
  have h : handleFailover c false o = c := by
    simp [handleFailover, handleFailoverStart]
  refine ⟨h, by rw [h], by rw [h], by rw [h], by rw [h], by rw [h], by rw [h], ?_⟩
  simp [step, handleFailoverStart]

/-! ## `handleFailover`: requests of a confirmed run -/

/-- C1, as stated, fails: after a confirmed failover whose POST meets a network
error, the POST is the last request; no GET to `/status` follows it. -/
theorem handleFailover_networkError_no_reload :
    requests (handleFailover loadedClient true .networkError).log =
      requests loadedClient.log ++ [(.POST, "http://localhost:5000/initiate-failover")] ∧
    requests (handleFailover loadedClient true .networkError).log ≠
      requests loadedClient.log ++
        [(.POST, "http://localhost:5000/initiate-failover"),
         (.GET, "http://localhost:5000/status")] := by
  constructor
  · rfl
  · decide

/-- C1, amended: a confirmed run issues exactly one POST to `/initiate-failover`
first.  When the POST yields a parsed JSON body other than `null`, exactly one
GET to `/status` follows; when the body is `null`, the parse fails or the
network fails, no request follows the POST. -/
theorem handleFailover_requests (c : Client) :
    (∀ code data, data ≠ .null → data ≠ .undefined →
      requests (handleFailover c true (.response code (some data))).log =
        requests c.log ++
          [(.POST, API_URL ++ "/initiate-failover"), (.GET, API_URL ++ "/status")]) ∧
    (∀ code,
      requests (handleFailover c true (.response code (some .null))).log =
        requests c.log ++ [(.POST, API_URL ++ "/initiate-failover")]) ∧
    (∀ code,
      requests (handleFailover c true (.response code none)).log =
        requests c.log ++ [(.POST, API_URL ++ "/initiate-failover")]) ∧
    requests (handleFailover c true .networkError).log =
      requests c.log ++ [(.POST, API_URL ++ "/initiate-failover")] := by
  refine ⟨?_, ?_, ?_, ?_⟩
  · intro code data h1 h2
    obtain ⟨m, hm⟩ := get_ok_of_ne data "message" h2 h1
    simp [handleFailover, handleFailoverStart, handleFailoverResume, hm,
      fetchStatusStart, Client.emit, requests_append, requests]
  · intro code
    simp [handleFailover, handleFailoverStart, handleFailoverResume, JsVal.get,
      handleFailoverCatch, Client.emit, requests_append, requests]
  · intro code
    simp [handleFailover, handleFailoverStart, handleFailoverResume,
      handleFailoverCatch, Client.emit, requests_append, requests]
  · simp [handleFailover, handleFailoverStart, handleFailoverResume,
      handleFailoverCatch, Client.emit, requests_append, requests]

/-- C1, amended, at a concrete run: the body `{"message": "Failover initiated"}`
is followed by the reload. -/
theorem handleFailover_requests_witness :
    requests (handleFailover loadedClient true
        (.response 200 (some (.obj [("message", .str "Failover initiated")])))).log =
      requests loadedClient.log ++
        [(.POST, API_URL ++ "/initiate-failover"), (.GET, API_URL ++ "/status")] :=
  (handleFailover_requests loadedClient).1 200
    (.obj [("message", .str "Failover initiated")]) (by simp) (by simp)

/-! ## `handleFailover`: notifications of a confirmed run -/

/-- C8: every confirmed run of `handleFailover` shows exactly one notification.
When the POST returns a JSON body with a string field `message`, the run adds
to the log the POST, then `alert` with that string verbatim, then the GET of
the status reload.  When the request or the JSON parse fails, the single
notification is the fixed text `Failed to initiate failover.`. -/
theorem handleFailover_notification (c : Client) :
    (∀ o, ∃ text, alerts (handleFailover c true o).log = alerts c.log ++ [text]) ∧
    (∀ code data msg, data.get "message" = .ok (.str msg) →
      (handleFailover c true (.response code (some data))).log =
        c.log ++ [.fetch .POST (API_URL ++ "/initiate-failover"), .alert (.str msg),
          .fetch .GET (API_URL ++ "/status")]) ∧
    (∀ code,
      alerts (handleFailover c true (.response code none)).log =
        alerts c.log ++ [.str "Failed to initiate failover."]) ∧
    alerts (handleFailover c true .networkError).log =
      alerts c.log ++ [.str "Failed to initiate failover."] := by
  refine ⟨?_, ?_, ?_, ?_⟩
  · intro o
    cases o with
    | networkError =>
      exact ⟨.str "Failed to initiate failover.", by
        simp [handleFailover, handleFailoverStart, handleFailoverResume,
          handleFailoverCatch, Client.emit, alerts_append, alerts]⟩
    | response code body =>
      cases body with
      | none =>
        exact ⟨.str "Failed to initiate failover.", by
          simp [handleFailover, handleFailoverStart, handleFailoverResume,
            handleFailoverCatch, Client.emit, alerts_append, alerts]⟩
      | some data =>
        cases hm : data.get "message" with
        | error e =>
          exact ⟨.str "Failed to initiate failover.", by
            simp [handleFailover, handleFailoverStart, handleFailoverResume, hm,
              handleFailoverCatch, Client.emit, alerts_append, alerts]⟩
        | ok m =>
          exact ⟨m, by
            simp [handleFailover, handleFailoverStart, handleFailoverResume, hm,
              fetchStatusStart, Client.emit, alerts_append, alerts]⟩
  · intro code data msg hm
    simp [handleFailover, handleFailoverStart, handleFailoverResume, hm,
      fetchStatusStart, Client.emit]
  · intro code
    simp [handleFailover, handleFailoverStart, handleFailoverResume,
      handleFailoverCatch, Client.emit, alerts_append, alerts]
  · simp [handleFailover, handleFailoverStart, handleFailoverResume,
      handleFailoverCatch, Client.emit, alerts_append, alerts]

/-- C8 at the scenario of the specification: the body
`{"message": "Failover initiated"}` yields the notification
`Failover initiated` and then a status fetch. -/
theorem handleFailover_notification_witness :
    (JsVal.obj [("message", .str "Failover initiated")]).get "message" =
        .ok (.str "Failover initiated") ∧
    (handleFailover loadedClient true
        (.response 200 (some (.obj [("message", .str "Failover initiated")])))).log =
      loadedClient.log ++
        [.fetch .POST (API_URL ++ "/initiate-failover"),
         .alert (.str "Failover initiated"),
         .fetch .GET (API_URL ++ "/status")] :=
  ⟨rfl, (handleFailover_notification loadedClient).2.1 200
    (.obj [("message", .str "Failover initiated")]) "Failover initiated" rfl⟩

/-! ## `fetchStatus`: failed loads -/

/-- C2, as stated, fails: a `500` response whose body is well-formed JSON is
not treated as a failure.  Its body is stored as the status and the view shows
the two site cards and no error message. -/
theorem fetchStatus_non2xx_json_stored :
    (fetchStatus init
        (.response 500 (some (mkStatus "us-east-1" "healthy" "us-west-2" "replicating")))).status =
      mkStatus "us-east-1" "healthy" "us-west-2" "replicating" ∧
    (fetchStatus init
        (.response 500 (some (mkStatus "us-east-1" "healthy" "us-west-2" "replicating")))).status ≠
      .null ∧
    ∃ v, (fetchStatus init
        (.response 500 (some (mkStatus "us-east-1" "healthy" "us-west-2" "replicating")))).view =
          .ok v ∧
      v.siteCards.length = 2 ∧ errorMessage ∉ v.elements := by
  refine ⟨rfl, ?_, ?_⟩
  · intro h
    cases h
  · refine ⟨_, rfl, rfl, ?_⟩
    simp [Node.elements, elementsList, errorMessage, actions, statusGridOf]

/-- C2, amended: for every prior state, when the GET meets a network error or a
body that is not valid JSON (whatever the HTTP status code), `fetchStatus`
leaves `status = null`, and the view after completion contains the fixed error
message, no site card and no loading indicator.  The HTTP status code of a
response whose body parses is not inspected: the body is stored. -/
theorem fetchStatus_failure (c : Client) (o : Outcome)
    (h : o = .networkError ∨ ∃ code, o = .response code none) :
    (fetchStatus c o).status = .null ∧
    (fetchStatus c o).loading = false ∧
    ∃ v, (fetchStatus c o).view = .ok v ∧
      errorMessage ∈ v.elements ∧ v.siteCards = [] ∧ loadingIndicator ∉ v.elements := by
  have hs : (fetchStatus c o).status = .null ∧ (fetchStatus c o).loading = false := by
    rcases h with h | ⟨code, h⟩ <;> subst h <;> exact ⟨rfl, rfl⟩
  refine ⟨hs.1, hs.2, ?_⟩
  refine ⟨_, by simp only [Client.view, hs.1, hs.2]; rfl, ?_, ?_, ?_⟩
  · simp [Node.elements, elementsList, errorMessage, actions]
  · rfl
  · simp [Node.elements, elementsList, errorMessage, actions, loadingIndicator]

/-- C2, amended, at a concrete input: a `502` response with an unparsable body
received while a status is on display. -/
theorem fetchStatus_failure_witness :
    (fetchStatus loadedClient (.response 502 none)).status = .null ∧
    (fetchStatus loadedClient (.response 502 none)).loading = false ∧
    ∃ v, (fetchStatus loadedClient (.response 502 none)).view = .ok v ∧
      errorMessage ∈ v.elements ∧ v.siteCards = [] ∧ loadingIndicator ∉ v.elements :=
  fetchStatus_failure loadedClient (.response 502 none) (Or.inr ⟨502, rfl⟩)

/-! ## Rendering -/

theorem truthy_of_get_get {v p : JsVal} {k1 k2 : String} {s : String}
    (h1 : v.get k1 = .ok p) (h2 : p.get k2 = .ok (.str s)) : v.truthy = true := by
  cases v <;> simp [JsVal.get] at h1 <;>
    first
      | rfl
      | (subst h1; simp [JsVal.get] at h2)

/-- C5: with `loading = false` and a valid `SystemStatus`, the view holds exactly
two site cards, the first headed `Primary Site (<primarySite.region>)` with
badge `primarySite.databaseStatus`, the second headed `DR Site (<drSite.region>)`
with badge `drSite.databaseStatus`, every string verbatim, and holds neither the
loading indicator nor the error message. -/
theorem App_renders_status (v : JsVal) (pr pd dr dd : String)
    (h : IsSystemStatus v pr pd dr dd) :
    ∃ view, App v false = .ok view ∧
      view.siteCards =
        [ .el "div" ["site-card", "primary"] none none
            [ .el "h2" [] none none [.text "Primary Site (", .expr (.str pr), .text ")"],
              .el "p" [] none none
                [ .text "Database Status: ",
                  .el "span" ["status-badge"] none none [.expr (.str pd)] ] ],
          .el "div" ["site-card", "dr"] none none
            [ .el "h2" [] none none [.text "DR Site (", .expr (.str dr), .text ")"],
              .el "p" [] none none
                [ .text "Database Status: ",
                  .el "span" ["status-badge"] none none [.expr (.str dd)] ] ] ] ∧
      (view.elements.filter (fun e => e.tag == some "h2")).map Node.shown =
        [some ("Primary Site (" ++ pr ++ ")"), some ("DR Site (" ++ dr ++ ")")] ∧
      (view.elements.filter (fun e => e.className.contains "status-badge")).map Node.shown =
        [some pd, some dd] ∧
      loadingIndicator ∉ view.elements ∧ errorMessage ∉ view.elements := by
  obtain ⟨p, d, hp, hd, hpr, hpd, hdr, hdd⟩ := h
  have ht : v.truthy = true := truthy_of_get_get hp hpr
  refine ⟨_, by simp [App, statusGrid, statusGridOf, ht, hp, hd, hpr, hpd, hdr, hdd, bind, Except.bind, pure, Except.pure]; rfl, ?_, ?_, ?_, ?_, ?_⟩
  · simp [Node.siteCards, Node.elements, elementsList, actions, Node.className]
  · simp [Node.elements, elementsList, actions, Node.tag, Node.shown, shownList,
      String.append_assoc]
  · simp [Node.elements, elementsList, actions, Node.className, Node.shown, shownList]
  · simp [Node.elements, elementsList, actions, loadingIndicator]
  · simp [Node.elements, elementsList, actions, errorMessage]


/-- C5 at the scenario of the specification: regions `us-east-1` / `us-west-2`
with statuses `healthy` / `replicating`. -/
theorem App_renders_status_witness :
    IsSystemStatus (mkStatus "us-east-1" "healthy" "us-west-2" "replicating")
      "us-east-1" "healthy" "us-west-2" "replicating" ∧
    ∃ view, App (mkStatus "us-east-1" "healthy" "us-west-2" "replicating") false = .ok view ∧
      view.siteCards =
        [ .el "div" ["site-card", "primary"] none none
            [ .el "h2" [] none none
                [.text "Primary Site (", .expr (.str "us-east-1"), .text ")"],
              .el "p" [] none none
                [ .text "Database Status: ",
                  .el "span" ["status-badge"] none none [.expr (.str "healthy")] ] ],
          .el "div" ["site-card", "dr"] none none
            [ .el "h2" [] none none
                [.text "DR Site (", .expr (.str "us-west-2"), .text ")"],
              .el "p" [] none none
                [ .text "Database Status: ",
                  .el "span" ["status-badge"] none none [.expr (.str "replicating")] ] ] ] ∧
      (view.elements.filter (fun e => e.tag == some "h2")).map Node.shown =
        [some "Primary Site (us-east-1)", some "DR Site (us-west-2)"] ∧
      (view.elements.filter (fun e => e.className.contains "status-badge")).map Node.shown =
        [some "healthy", some "replicating"] ∧
      loadingIndicator ∉ view.elements ∧ errorMessage ∉ view.elements :=
  ⟨⟨_, _, rfl, rfl, rfl, rfl, rfl, rfl⟩,
    App_renders_status _ "us-east-1" "healthy" "us-west-2" "replicating"
      ⟨_, _, rfl, rfl, rfl, rfl, rfl, rfl⟩⟩

theorem statusGrid_shape {status : JsVal} {g : Node} (h : statusGrid status = .ok g) :
    ∃ a b c d, g = statusGridOf a b c d := by
  unfold statusGrid at h
  cases hp : status.get "primarySite" with
  | error e => simp [hp, bind, Except.bind] at h
  | ok p =>
    cases hd : status.get "drSite" with
    | error e =>
      cases h1 : p.get "region" <;> cases h2 : p.get "databaseStatus" <;>
        simp [hp, hd, h1, h2, bind, Except.bind] at h
    | ok d =>
      cases h1 : p.get "region" <;> cases h2 : p.get "databaseStatus" <;>
        cases h3 : d.get "region" <;> cases h4 : d.get "databaseStatus" <;>
        simp [hp, hd, h1, h2, h3, h4, bind, Except.bind, pure, Except.pure] at h
      exact ⟨_, _, _, _, h.symm⟩

theorem App_loading (status : JsVal) :
    App status true =
      .ok (.el "div" ["App"] none none
        [ .el "header" ["App-header"] none none
            [.el "h1" [] none none [.text "Cloud Disaster Recovery Dashboard"]],
          .el "main" ["container"] none none [loadingIndicator, actions true] ]) := by
  rfl

theorem App_falsy (status : JsVal) (h : status.truthy = false) :
    App status false =
      .ok (.el "div" ["App"] none none
        [ .el "header" ["App-header"] none none
            [.el "h1" [] none none [.text "Cloud Disaster Recovery Dashboard"]],
          .el "main" ["container"] none none [errorMessage, actions false] ]) := by
  simp [App, h, bind, Except.bind, pure, Except.pure]

theorem App_truthy (status : JsVal) (h : status.truthy = true) :
    App status false =
      (statusGrid status).map (fun g =>
        .el "div" ["App"] none none
          [ .el "header" ["App-header"] none none
              [.el "h1" [] none none [.text "Cloud Disaster Recovery Dashboard"]],
            .el "main" ["container"] none none [g, actions false] ]) := by
  simp [App, h, bind, Except.bind, pure, Except.pure, Except.map]

/-- The tree `App` returns for a valid `SystemStatus`. -/
theorem App_of_status (v : JsVal) (pr pd dr dd : String)
    (h : IsSystemStatus v pr pd dr dd) :
    App v false =
      .ok (.el "div" ["App"] none none
        [ .el "header" ["App-header"] none none
            [.el "h1" [] none none [.text "Cloud Disaster Recovery Dashboard"]],
          .el "main" ["container"] none none
            [statusGridOf (.str pr) (.str pd) (.str dr) (.str dd), actions false] ]) := by
  obtain ⟨p, d, hp, hd, hpr, hpd, hdr, hdd⟩ := h
  have ht : v.truthy = true := truthy_of_get_get hp hpr
  simp [App, statusGrid, ht, hp, hd, hpr, hpd, hdr, hdd, bind, Except.bind, pure,
    Except.pure]

/-- Whenever `App` returns a tree, its buttons are the two controls with
`disabled` equal to `loading`. -/
theorem App_buttons (status : JsVal) (loading : Bool) (v : Node)
    (hv : App status loading = .ok v) :
    v.buttons =
      [ .el "button" [] (some .fetchStatus) (some loading) [.text "Refresh Status"],
        .el "button" ["failover-button"] (some .handleFailover) (some loading)
          [.text "Initiate Failover"] ] := by
  cases loading with
  | true =>
    rw [App_loading status] at hv
    cases hv
    simp [Node.buttons, Node.elements, elementsList, loadingIndicator, actions, Node.tag]
  | false =>
    cases ht : status.truthy with
    | false =>
      rw [App_falsy status ht] at hv
      cases hv
      simp [Node.buttons, Node.elements, elementsList, errorMessage, actions, Node.tag]
    | true =>
      rw [App_truthy status ht] at hv
      cases hg : statusGrid status with
      | error e => simp [hg, Except.map] at hv
      | ok g =>
        obtain ⟨a, b, c, d, rfl⟩ := statusGrid_shape hg
        simp [hg, Except.map] at hv
        subst hv
        simp [Node.buttons, Node.elements, elementsList, statusGridOf, actions, Node.tag]

/-- A render returns the tree of `App` when React accepts its children. -/
theorem render_of_App {status : JsVal} {loading : Bool} {tree : Node}
    (h : App status loading = .ok tree) (ha : tree.accepted = true) :
    render status loading = .ok tree := by
  simp [render, h, ha]

theorem render_loading (status : JsVal) :
    render status true =
      .ok (.el "div" ["App"] none none
        [ .el "header" ["App-header"] none none
            [.el "h1" [] none none [.text "Cloud Disaster Recovery Dashboard"]],
          .el "main" ["container"] none none [loadingIndicator, actions true] ]) :=
  render_of_App (App_loading status) rfl

theorem render_falsy (status : JsVal) (h : status.truthy = false) :
    render status false =
      .ok (.el "div" ["App"] none none
        [ .el "header" ["App-header"] none none
            [.el "h1" [] none none [.text "Cloud Disaster Recovery Dashboard"]],
          .el "main" ["container"] none none [errorMessage, actions false] ]) :=
  render_of_App (App_falsy status h) rfl

theorem render_of_status (v : JsVal) (pr pd dr dd : String)
    (h : IsSystemStatus v pr pd dr dd) :
    render v false =
      .ok (.el "div" ["App"] none none
        [ .el "header" ["App-header"] none none
            [.el "h1" [] none none [.text "Cloud Disaster Recovery Dashboard"]],
          .el "main" ["container"] none none
            [statusGridOf (.str pr) (.str pd) (.str dr) (.str dd), actions false] ]) :=
  render_of_App (App_of_status v pr pd dr dd h) rfl

/-- A status whose `primarySite.region` is a JSON object: `App` returns a tree,
and React refuses it. -/
theorem render_object_region_throws :
    (∃ tree, App objectRegionStatus false = .ok tree) ∧
    render objectRegionStatus false = .error .objectAsChild :=
  ⟨⟨_, rfl⟩, rfl⟩

/-! ## Rendering after a status load -/

/-- C9, as stated, fails: after the mount effect and a `200` response whose
body is the JSON object `{}`, the stored status is truthy and has no
`primarySite`, so the render throws on reading `region` of `undefined`. -/
theorem fetchStatus_empty_object_render_throws :
    (run init [.mount, .getSettled (.response 200 (some (.obj [])))]).map Client.view =
      some (.error (.typeError "region")) ∧
    (fetchStatus init (.response 200 (some (.obj [])))).view = .error (.typeError "region") ∧
    (run init [.mount, .getSettled (.response 200 (some (.obj [])))]).map Client.rendered =
      some (.error (.typeError "region")) ∧
    (fetchStatus init (.response 200 (some (.obj [])))).rendered =
      .error (.typeError "region") := by
  refine ⟨rfl, rfl, rfl, rfl⟩

/-- C9, amended: for every prior state, rendering the state that `fetchStatus`
leaves behind does not fail when the GET met a network error, a body that does
not parse, a falsy JSON body, or a JSON body that is a valid `SystemStatus`;
and the render while the request is in flight does not fail either. -/
theorem fetchStatus_render_total (c : Client) :
    (∀ code data pr pd dr dd, IsSystemStatus data pr pd dr dd →
      ∃ v, (fetchStatus c (.response code (some data))).rendered = .ok v) ∧
    (∀ code data, data.truthy = false →
      ∃ v, (fetchStatus c (.response code (some data))).rendered = .ok v) ∧
    (∀ code, ∃ v, (fetchStatus c (.response code none)).rendered = .ok v) ∧
    (∃ v, (fetchStatus c .networkError).rendered = .ok v) ∧
    (∃ v, (fetchStatusStart c).rendered = .ok v) := by
  refine ⟨?_, ?_, ?_, ?_, ?_⟩
  · intro code data pr pd dr dd h
    exact ⟨_, render_of_status data pr pd dr dd h⟩
  · intro code data h
    exact ⟨_, render_falsy data h⟩
  · intro code
    exact ⟨_, render_falsy .null rfl⟩
  · exact ⟨_, render_falsy .null rfl⟩
  · exact ⟨_, render_loading c.status⟩

/-- C9, amended, at a concrete input: a fully populated status body received
with a `200` renders. -/
theorem fetchStatus_render_total_witness :
    IsSystemStatus (mkStatus "us-east-1" "healthy" "us-west-2" "replicating")
      "us-east-1" "healthy" "us-west-2" "replicating" ∧
    ∃ v, (fetchStatus init
      (.response 200 (some (mkStatus "us-east-1" "healthy" "us-west-2" "replicating")))).rendered =
        .ok v :=
  ⟨⟨_, _, rfl, rfl, rfl, rfl, rfl, rfl⟩,
    (fetchStatus_render_total init).1 200
      (mkStatus "us-east-1" "healthy" "us-west-2" "replicating")
      "us-east-1" "healthy" "us-west-2" "replicating"
      ⟨_, _, rfl, rfl, rfl, rfl, rfl, rfl⟩⟩

/-! ## The three bodies of the view -/

/-- C10, as stated, fails: with `loading = false` and a status that is not
`null`, the view need not be the two site cards.  For the object `{}` the
render throws, and for the JSON value `false` the error message is shown. -/
theorem App_otherwise_not_cards :
    App (.obj []) false = .error (.typeError "region") ∧
    render (.obj []) false = .error (.typeError "region") ∧
    (JsVal.obj []) ≠ .null ∧
    (∃ v, render (.bool false) false = .ok v ∧
      errorMessage ∈ v.elements ∧ v.siteCards = []) ∧
    JsVal.bool false ≠ .null := by
  refine ⟨rfl, rfl, ?_, ⟨_, rfl, ?_, rfl⟩, ?_⟩
  · intro h
    cases h
  · simp [Node.elements, elementsList, errorMessage, actions]
  · intro h
    cases h

/-- C10, amended: the render depends on `status` and `loading` only and shows
one of three bodies.  With `loading = true` it shows the loading indicator
whatever `status` is.  With `loading = false` and a falsy status (`null`, and
also `false`, `0`, `""`) it shows the error message.  With `loading = false`
and a valid `SystemStatus` it shows the two site cards with the four strings.
In each of the three cases only that body is present and the two buttons are
present with `disabled` equal to `loading`. -/
theorem render_bodies (status : JsVal) (loading : Bool) :
    (loading = true →
      ∃ v, render status loading = .ok v ∧
        loadingIndicator ∈ v.elements ∧ errorMessage ∉ v.elements ∧ v.siteCards = [] ∧
        v.buttons =
          [ .el "button" [] (some .fetchStatus) (some true) [.text "Refresh Status"],
            .el "button" ["failover-button"] (some .handleFailover) (some true)
              [.text "Initiate Failover"] ]) ∧
    (loading = false → status.truthy = false →
      ∃ v, render status loading = .ok v ∧
        errorMessage ∈ v.elements ∧ loadingIndicator ∉ v.elements ∧ v.siteCards = [] ∧
        v.buttons =
          [ .el "button" [] (some .fetchStatus) (some false) [.text "Refresh Status"],
            .el "button" ["failover-button"] (some .handleFailover) (some false)
              [.text "Initiate Failover"] ]) ∧
    (loading = false → ∀ pr pd dr dd, IsSystemStatus status pr pd dr dd →
      ∃ v, render status loading = .ok v ∧
        v.siteCards = (statusGridOf (.str pr) (.str pd) (.str dr) (.str dd)).children ∧
        v.siteCards.length = 2 ∧
        loadingIndicator ∉ v.elements ∧ errorMessage ∉ v.elements ∧
        v.buttons =
          [ .el "button" [] (some .fetchStatus) (some false) [.text "Refresh Status"],
            .el "button" ["failover-button"] (some .handleFailover) (some false)
              [.text "Initiate Failover"] ]) := by
  refine ⟨?_, ?_, ?_⟩
  · rintro rfl
    refine ⟨_, render_loading status, ?_, ?_, rfl, rfl⟩
    · simp [Node.elements, elementsList, loadingIndicator, actions]
    · simp [Node.elements, elementsList, loadingIndicator, errorMessage, actions]
  · rintro rfl ht
    refine ⟨_, render_falsy status ht, ?_, ?_, rfl, rfl⟩
    · simp [Node.elements, elementsList, errorMessage, actions]
    · simp [Node.elements, elementsList, loadingIndicator, errorMessage, actions]
  · rintro rfl pr pd dr dd h
    refine ⟨_, render_of_status status pr pd dr dd h, ?_, ?_, ?_, ?_, ?_⟩
    · simp [Node.siteCards, Node.elements, elementsList, statusGridOf, actions,
        Node.className, Node.children]
    · simp [Node.siteCards, Node.elements, elementsList, statusGridOf, actions,
        Node.className]
    · simp [Node.elements, elementsList, statusGridOf, actions, loadingIndicator]
    · simp [Node.elements, elementsList, statusGridOf, actions, errorMessage]
    · simp [Node.buttons, Node.elements, elementsList, statusGridOf, actions, Node.tag]

/-- C10, amended, at two concrete states with `loading = false`: after a failed
load (`status = null`) the error message with both buttons enabled, and with
the fully populated status of the specification the two site cards with both
buttons enabled. -/
theorem render_bodies_witness :
    (∃ v, render .null false = .ok v ∧
      errorMessage ∈ v.elements ∧ loadingIndicator ∉ v.elements ∧ v.siteCards = [] ∧
      v.buttons =
        [ .el "button" [] (some .fetchStatus) (some false) [.text "Refresh Status"],
          .el "button" ["failover-button"] (some .handleFailover) (some false)
            [.text "Initiate Failover"] ]) ∧
    IsSystemStatus (mkStatus "us-east-1" "healthy" "us-west-2" "replicating")
      "us-east-1" "healthy" "us-west-2" "replicating" ∧
    (∃ v, render (mkStatus "us-east-1" "healthy" "us-west-2" "replicating") false = .ok v ∧
      v.siteCards =
        (statusGridOf (.str "us-east-1") (.str "healthy") (.str "us-west-2")
          (.str "replicating")).children ∧
      v.siteCards.length = 2 ∧
      loadingIndicator ∉ v.elements ∧ errorMessage ∉ v.elements ∧
      v.buttons =
        [ .el "button" [] (some .fetchStatus) (some false) [.text "Refresh Status"],
          .el "button" ["failover-button"] (some .handleFailover) (some false)
            [.text "Initiate Failover"] ]) :=
  ⟨(render_bodies .null false).2.1 rfl rfl,
    ⟨_, _, rfl, rfl, rfl, rfl, rfl, rfl⟩,
    (render_bodies (mkStatus "us-east-1" "healthy" "us-west-2" "replicating") false).2.2 rfl
      "us-east-1" "healthy" "us-west-2" "replicating" ⟨_, _, rfl, rfl, rfl, rfl, rfl, rfl⟩⟩

/-! ## The stored status along any sequence of events -/

theorem step_status {c c1 : Client} {a : Action} (h : step c a = some c1) :
    c1.status = c.status ∨ c1.status = .null ∨
      ∃ code, a = .getSettled (.response code (some c1.status)) := by
  cases a with
  | mount =>
    by_cases hm : c.mounted = true <;> simp [step, hm] at h
    subst h; left; rfl
  | clickRefresh =>
    by_cases hl : c.loading = true <;> simp [step, hl] at h
    subst h; left; rfl
  | clickFailover b =>
    by_cases hl : c.loading = true <;> simp [step, hl] at h
    subst h; left
    cases b <;> rfl
  | getSettled o =>
    by_cases hp : 0 < c.pendingGet <;> simp [step, hp] at h
    subst h
    cases o with
    | networkError => right; left; rfl
    | response code body =>
      cases body with
      | none => right; left; rfl
      | some data => right; right; exact ⟨code, rfl⟩
  | postSettled o =>
    by_cases hp : 0 < c.pendingPost <;> simp [step, hp] at h
    subst h; left
    cases o with
    | networkError => rfl
    | response code body =>
      cases body with
      | none => rfl
      | some data =>
        simp only [handleFailoverResume]
        cases data.get "message" <;> rfl

theorem run_status (acts : List Action) (c0 c : Client) (h : run c0 acts = some c) :
    c.status = c0.status ∨ c.status = .null ∨
      ∃ code, Action.getSettled (.response code (some c.status)) ∈ acts := by
  induction acts generalizing c0 with
  | nil =>
    simp [run] at h
    subst h; left; rfl
  | cons a rest ih =>
    simp only [run] at h
    cases hs : step c0 a with
    | none => simp [hs] at h
    | some c1 =>
      rw [hs] at h
      rcases ih c1 h with h1 | h1 | ⟨code, h1⟩
      · rcases step_status hs with h2 | h2 | ⟨code, h2⟩
        · left; rw [h1, h2]
        · right; left; rw [h1, h2]
        · right; right
          refine ⟨code, ?_⟩
          rw [h1, ← h2]
          exact List.mem_cons_self _ _
      · right; left; exact h1
      · right; right; exact ⟨code, List.mem_cons_of_mem _ h1⟩

/-- C6, as stated, fails: after the mount effect and a `200` response whose body
has a `primarySite` and no `drSite`, that body is the stored status: it is
neither `null` nor fully populated. -/
theorem status_partial_reachable :
    (run init [.mount, .getSettled (.response 200 (some partialStatus))]).map Client.status =
      some partialStatus ∧
    partialStatus ≠ .null ∧ ¬ Populated partialStatus := by
  refine ⟨rfl, ?_, ?_⟩
  · intro h
    cases h
  · rintro ⟨a, b, c, d, p, q, hp, hq, -, -, hr, -⟩
    have hd : partialStatus.get "drSite" = .ok .undefined := rfl
    rw [hd] at hq
    cases hq
    simp [JsVal.get] at hr

/-- C6, amended: in every state reachable from the initial state, the stored
status is `null` or is the JSON body of a status response received so far,
stored as it came; so when every JSON body the status endpoint returned is a
fully populated `SystemStatus`, the stored status is `null` or fully
populated. -/
theorem status_null_or_received (acts : List Action) (c : Client)
    (h : run init acts = some c) :
    (c.status = .null ∨
      ∃ code, Action.getSettled (.response code (some c.status)) ∈ acts) ∧
    ((∀ code data, Action.getSettled (.response code (some data)) ∈ acts → Populated data) →
      c.status = .null ∨ Populated c.status) := by
  have key : c.status = .null ∨
      ∃ code, Action.getSettled (.response code (some c.status)) ∈ acts := by
    rcases run_status acts init c h with h1 | h1 | h1
    · left; rw [h1]; rfl
    · left; exact h1
    · right; exact h1
  refine ⟨key, fun hv => ?_⟩
  rcases key with h1 | ⟨code, h1⟩
  · left; exact h1
  · right; exact hv code _ h1

/-- C6, amended, at a concrete run: the mount effect followed by a fully
populated status response. -/
theorem status_null_or_received_witness :
    ∃ c, run init [.mount, .getSettled (.response 200
        (some (mkStatus "us-east-1" "healthy" "us-west-2" "replicating")))] = some c ∧
      (c.status = .null ∨ Populated c.status) :=
  ⟨loadedClient, rfl,
    (status_null_or_received
      [.mount, .getSettled (.response 200
        (some (mkStatus "us-east-1" "healthy" "us-west-2" "replicating")))]
      loadedClient rfl).2 (by
        intro code data hm
        simp at hm
        obtain ⟨-, rfl⟩ := hm
        exact ⟨_, _, _, _, _, _, rfl, rfl, rfl, rfl, rfl, rfl⟩)⟩



/-! ## The loading flag and requests in flight -/

theorem quiet_init : Quiet init :=
  ⟨by decide, by decide, by decide, by decide, by decide⟩

theorem fetchStatusResume_fields (c : Client) (o : Outcome) :
    (fetchStatusResume c o).loading = false ∧
    (fetchStatusResume c o).mounted = c.mounted ∧
    (fetchStatusResume c o).pendingGet = c.pendingGet ∧
    (fetchStatusResume c o).pendingPost = c.pendingPost := by
  cases o with
  | networkError => exact ⟨rfl, rfl, rfl, rfl⟩
  | response code body => cases body <;> exact ⟨rfl, rfl, rfl, rfl⟩

theorem handleFailoverResume_fields (c : Client) (o : Outcome) :
    (handleFailoverResume c o).mounted = c.mounted ∧
    (handleFailoverResume c o).pendingPost = c.pendingPost ∧
    (((handleFailoverResume c o).loading = true ∧
        (handleFailoverResume c o).pendingGet = c.pendingGet + 1) ∨
      ((handleFailoverResume c o).loading = c.loading ∧
        (handleFailoverResume c o).pendingGet = c.pendingGet)) := by
  cases o with
  | networkError => exact ⟨rfl, rfl, Or.inr ⟨rfl, rfl⟩⟩
  | response code body =>
    cases body with
    | none => exact ⟨rfl, rfl, Or.inr ⟨rfl, rfl⟩⟩
    | some data =>
      simp only [handleFailoverResume]
      cases data.get "message" with
      | error e => exact ⟨rfl, rfl, Or.inr ⟨rfl, rfl⟩⟩
      | ok m => exact ⟨rfl, rfl, Or.inl ⟨rfl, rfl⟩⟩

theorem quiet_step {c c1 : Client} {a : Action} (hq : Quiet c)
    (hc : (a.isClick && decide (0 < c.pendingPost)) = false)
    (h : step c a = some c1) : Quiet c1 := by
  obtain ⟨h1, h2, h3, h4, h5⟩ := hq
  cases a with
  | mount =>
    by_cases hm : c.mounted = true <;> simp [step, hm] at h
    subst h
    have := h5 (by simpa using hm)
    refine ⟨?_, ?_, ?_, ?_, ?_⟩ <;> simp [fetchStatusStart, Client.emit] <;> omega
  | clickRefresh =>
    by_cases hl : c.loading = true <;> simp [step, hl] at h
    subst h
    simp [Action.isClick] at hc
    have hm : c.mounted = true := by
      by_contra hm
      exact hl (h5 (by simpa using hm)).1
    have hg : c.pendingGet ≠ 1 := fun hg => hl ((h4 hm).2 hg)
    refine ⟨?_, ?_, ?_, ?_, ?_⟩ <;> simp [fetchStatusStart, Client.emit, hm] <;> omega
  | clickFailover b =>
    by_cases hl : c.loading = true <;> simp [step, hl] at h
    subst h
    simp [Action.isClick] at hc
    have hm : c.mounted = true := by
      by_contra hm
      exact hl (h5 (by simpa using hm)).1
    have hg : c.pendingGet ≠ 1 := fun hg => hl ((h4 hm).2 hg)
    cases b with
    | false => exact ⟨h1, h2, h3, h4, h5⟩
    | true =>
      refine ⟨?_, ?_, ?_, ?_, ?_⟩ <;>
        simp [handleFailoverStart, Client.emit, hm, hl] <;> omega
  | getSettled o =>
    by_cases hp : 0 < c.pendingGet <;> simp [step, hp] at h
    subst h
    obtain ⟨f1, f2, f3, f4⟩ :=
      fetchStatusResume_fields { c with pendingGet := c.pendingGet - 1 } o
    have hm : c.mounted = true := by
      by_contra hm
      have := (h5 (by simpa using hm)).2.1
      omega
    refine ⟨?_, ?_, ?_, ?_, ?_⟩
    · rw [f3]; simp; omega
    · rw [f4]; exact h2
    · rw [f3, f4]; simp; omega
    · rw [f1, f3]; simp; omega
    · rw [f2]; simp [hm]
  | postSettled o =>
    by_cases hp : 0 < c.pendingPost <;> simp [step, hp] at h
    subst h
    obtain ⟨f1, f2, f3⟩ :=
      handleFailoverResume_fields { c with pendingPost := c.pendingPost - 1 } o
    have hm : c.mounted = true := by
      by_contra hm
      have := (h5 (by simpa using hm)).2.2
      omega
    have hg : c.pendingGet = 0 := by
      by_contra hg
      have := h3 (by omega)
      omega
    have hl : c.loading = false := by
      cases hl : c.loading with
      | false => rfl
      | true =>
        have := (h4 hm).1 hl
        omega
    refine ⟨?_, ?_, ?_, ?_, ?_⟩
    · rcases f3 with ⟨-, f3⟩ | ⟨-, f3⟩ <;> rw [f3] <;> simp <;> omega
    · rw [f2]; simp; omega
    · rw [f2]; simp; omega
    · rw [f1]
      intro _
      rcases f3 with ⟨f3, f3'⟩ | ⟨f3, f3'⟩ <;> rw [f3, f3'] <;> simp [hg, hl]
    · rw [f1]; simp [hm]

theorem quiet_run (acts : List Action) (c0 c : Client) (hq : Quiet c0)
    (hc : calm c0 acts = true) (h : run c0 acts = some c) : Quiet c := by
  induction acts generalizing c0 with
  | nil =>
    simp [run] at h
    subst h; exact hq
  | cons a rest ih =>
    simp only [run] at h
    cases hs : step c0 a with
    | none => simp [hs] at h
    | some c1 =>
      rw [hs] at h
      simp only [calm, hs, Bool.and_eq_true, Bool.not_eq_true'] at hc
      exact ih c1 (quiet_step hq hc.1 hs) hc.2 h



/-- C4, as stated, fails: after a status load, a confirmed click on `Initiate
Failover` leaves the POST in flight with `loading = false` and both buttons
enabled. -/
theorem failover_post_in_flight_not_loading :
    ∃ c, run init
        [ .mount,
          .getSettled (.response 200
            (some (mkStatus "us-east-1" "healthy" "us-west-2" "replicating"))),
          .clickFailover true ] = some c ∧
      c.pendingPost = 1 ∧ c.loading = false ∧
      ∃ v, c.view = .ok v ∧ v.buttons.map Node.disabled = [some false, some false] :=
  ⟨handleFailoverStart loadedClient true, rfl, rfl, rfl, _, rfl, rfl⟩

/-- With the controls enabled during the POST, a refresh can overlap the reload
that follows the POST: the first GET to settle clears `loading` while the
second is still in flight. -/
theorem overlapping_get_in_flight_not_loading :
    ∃ c, run init
        [ .mount,
          .getSettled (.response 200
            (some (mkStatus "us-east-1" "healthy" "us-west-2" "replicating"))),
          .clickFailover true,
          .clickRefresh,
          .postSettled (.response 200 (some (.obj [("message", .str "Failover initiated")]))),
          .getSettled (.response 200
            (some (mkStatus "us-east-1" "healthy" "us-west-2" "replicating"))) ] = some c ∧
      c.pendingGet = 1 ∧ c.loading = false := by
  refine ⟨_, rfl, rfl, rfl⟩

/-- C4, amended: in every state reachable from the initial state without the
operator using a control while a failover POST is in flight, a GET to
`/status` in flight means `loading = true` and both buttons disabled, and the
state right after that GET settles has `loading = false` and no request in
flight.  `handleFailover` does not set `loading`: while its POST is in flight,
`loading` is false. -/
theorem loading_while_get_in_flight (acts : List Action) (c : Client)
    (h : run init acts = some c) (hc : calm init acts = true) :
    (0 < c.pendingGet →
      c.loading = true ∧
      ∃ v, c.view = .ok v ∧ v.buttons.map Node.disabled = [some true, some true]) ∧
    (∀ o c1, step c (.getSettled o) = some c1 →
      c1.loading = false ∧ c1.pendingGet = 0 ∧ c1.pendingPost = 0) ∧
    (0 < c.pendingPost → c.loading = false ∧ c.pendingGet = 0) := by
  obtain ⟨h1, h2, h3, h4, h5⟩ := quiet_run acts init c quiet_init hc h
  have hmount : 0 < c.pendingGet ∨ 0 < c.pendingPost → c.mounted = true := by
    intro hp
    by_contra hm
    have := h5 (by simpa using hm)
    omega
  refine ⟨?_, ?_, ?_⟩
  · intro hp
    have hl : c.loading = true := (h4 (hmount (Or.inl hp))).2 (by omega)
    refine ⟨hl, _, (by rw [Client.view, hl]; exact App_loading c.status), by rfl⟩
  · intro o c1 hs
    have hp : 0 < c.pendingGet := by
      by_contra hp
      simp [step, hp] at hs
    simp [step, hp] at hs
    subst hs
    obtain ⟨f1, -, f3, f4⟩ :=
      fetchStatusResume_fields { c with pendingGet := c.pendingGet - 1 } o
    refine ⟨f1, ?_, ?_⟩
    · rw [f3]; simp; omega
    · rw [f4]; exact h3 (by omega)
  · intro hp
    have hg : c.pendingGet = 0 := by
      by_contra hg
      have := h3 (by omega)
      omega
    refine ⟨?_, hg⟩
    cases hl : c.loading with
    | false => rfl
    | true =>
      have := (h4 (hmount (Or.inr hp))).1 hl
      omega

/-- C4, amended, at a concrete run: the reload issued after a successful
failover POST. -/
theorem loading_while_get_in_flight_witness :
    ∃ c, run init
        [ .mount,
          .getSettled (.response 200
            (some (mkStatus "us-east-1" "healthy" "us-west-2" "replicating"))),
          .clickFailover true,
          .postSettled (.response 200 (some (.obj [("message", .str "Failover initiated")]))) ]
        = some c ∧
      0 < c.pendingGet ∧ c.loading = true ∧
      ∃ v, c.view = .ok v ∧ v.buttons.map Node.disabled = [some true, some true] :=
  ⟨handleFailover loadedClient true
      (.response 200 (some (.obj [("message", .str "Failover initiated")]))),
    rfl, by decide,
    (loading_while_get_in_flight
      [ .mount,
        .getSettled (.response 200
          (some (mkStatus "us-east-1" "healthy" "us-west-2" "replicating"))),
        .clickFailover true,
        .postSettled (.response 200 (some (.obj [("message", .str "Failover initiated")]))) ]
      _ rfl rfl).1 (by decide)⟩

end Dashboard
